import Mathlib

/-!
# Verification of the agent-bridge-platform connection and routing engine

A shallow embedding of the parts of the `agent-bridge-platform` repository
(websocket-server and web-server crates) that the specification's claims are
about, together with theorems settling each claim.

Conventions of the embedding:
* Rust `Instant` / wall-clock times are modelled as `Nat` tick counts
  (seconds); `Duration` values are `Nat` numbers of seconds.
  `now.duration_since(earlier)` becomes truncated subtraction `now - earlier`.
* `Uuid` is modelled as `Nat`.
* `DashMap` / `HashMap` are modelled as association lists with
  insert-replaces-key semantics (`AssocOps` below).
* Actor side effects (`do_send`, `ctx.text`, `ctx.ping`, `ctx.stop`) are made
  explicit: each handler returns its new state together with a list of
  emitted effects.  Pure log lines (`tracing::…`) that carry a policy meaning
  (for instance the buffer-full warning) are modelled as effects as well.
-/

namespace AgentBridge

/-! ## Association list operations (model of `DashMap` / `HashMap`) -/

/-- Look up the value stored under key `k` (model of `HashMap::get`). -/
def lookupAssoc {κ α : Type} [DecidableEq κ] (m : List (κ × α)) (k : κ) : Option α :=
  match m.find? (fun e => e.1 = k) with
  | some e => some e.2
  | none => none

/-- Insert `(k, v)`, replacing any previous binding of `k`
(model of `HashMap::insert` / `DashMap::insert`). -/
def insertAssoc {κ α : Type} [DecidableEq κ] (m : List (κ × α)) (k : κ) (v : α) :
    List (κ × α) :=
  (k, v) :: m.filter (fun e => ¬ e.1 = k)

/-- Remove the binding of `k` (model of `HashMap::remove` / `DashMap::remove`). -/
def removeAssoc {κ α : Type} [DecidableEq κ] (m : List (κ × α)) (k : κ) :
    List (κ × α) :=
  m.filter (fun e => ¬ e.1 = k)

/-- Apply `f` to the value stored under `k`, if any (model of `get_mut`). -/
def updateAssoc {κ α : Type} [DecidableEq κ] (m : List (κ × α)) (k : κ) (f : α → α) :
    List (κ × α) :=
  m.map (fun e => if e.1 = k then (e.1, f e.2) else e)

/-! ## String helpers mirroring the Rust string operations used by the code -/

/-- Does `pat` occur as a contiguous substring of `l`?
(model of Rust `str::contains`). -/
def listContainsSub (l pat : List Char) : Bool :=
  match l with
  | [] => pat.isEmpty
  | _ :: t => pat.isPrefixOf l || listContainsSub t pat

/-- Model of Rust `str::contains` on `String`. -/
def containsSub (s pat : String) : Bool :=
  listContainsSub s.data pat.data

/-- Model of `content.trim_start().starts_with('{') && content.trim_end().ends_with('}')`
from `Handler<ClientActorMessage> for ClientSessionActor`. -/
def jsonObjectLike (s : String) : Bool :=
  ((s.data.dropWhile Char.isWhitespace).head? == some '{') &&
    ((s.data.reverse.dropWhile Char.isWhitespace).head? == some '}')

/-- Model of `content.trim_end_matches('}')`: drop every trailing `'}'`. -/
def trimEndBraces (s : String) : String :=
  String.mk (s.data.reverse.dropWhile (fun c => c == '}')).reverse

/-- Model of `str::ends_with(',')`. -/
def endsWithComma (s : String) : Bool :=
  s.data.getLast? == some ','

/-! ## Connection states (`state_manager.rs`, `enum ConnectionState`) -/

/-- `ConnectionState` from `websocket-server/src/actors/state_manager.rs`. -/
inductive ConnectionState where
  | Connected
  | Disconnected
  | Reconnecting
  | Idle
  | Error
deriving DecidableEq, Repr

/-! ## The delivery tracker (`client_session_actor.rs`, `struct MessageTracker`) -/

/-- `MessageTracker` from `client_session_actor.rs`.  `pending_acks` maps a
message id to `(content, sent_time)`; times are `Nat` seconds. -/
structure MessageTracker where
  last_sent_id : Nat
  last_received_id : Nat
  pending_acks : List (Nat × String × Nat)
  ack_timeout : Nat
deriving DecidableEq, Repr

namespace MessageTracker

/-- `MessageTracker::new()`: zero ids, empty pending table, 30 s ack timeout. -/
def new : MessageTracker :=
  { last_sent_id := 0
    last_received_id := 0
    pending_acks := []
    ack_timeout := 30 }

/-- `MessageTracker::next_id()`: increment `last_sent_id` and return it. -/
def next_id (t : MessageTracker) : MessageTracker × Nat :=
  ({ t with last_sent_id := t.last_sent_id + 1 }, t.last_sent_id + 1)

/-- `MessageTracker::add_pending(msg_id, content)`: record `(content, now)`
under `msg_id` (the source stamps `Instant::now()`, here the explicit `now`). -/
def add_pending (t : MessageTracker) (msg_id : Nat) (content : String) (now : Nat) :
    MessageTracker :=
  { t with pending_acks := AgentBridge.insertAssoc t.pending_acks msg_id (content, now) }

/-- `MessageTracker::confirm_delivery(msg_id)`: remove the entry, report
whether it existed. -/
def confirm_delivery (t : MessageTracker) (msg_id : Nat) : MessageTracker × Bool :=
  ({ t with pending_acks := AgentBridge.removeAssoc t.pending_acks msg_id },
   (AgentBridge.lookupAssoc t.pending_acks msg_id).isSome)

/-- `MessageTracker::check_expired()`: every id whose entry satisfies
`now.duration_since(sent_time) > ack_timeout` (strict). -/
def check_expired (t : MessageTracker) (now : Nat) : List Nat :=
  (t.pending_acks.filter (fun e => now - e.2.2 > t.ack_timeout)).map (fun e => e.1)

end MessageTracker

/-! ## Session snapshots (`state_manager.rs`, `struct SessionState`) -/

/-- `SessionState` from `state_manager.rs` (the spec's `PersistedSessionState`):
the per-client snapshot persisted across reconnects. -/
structure SessionState where
  client_id : Nat
  authenticated : Bool
  wallet_address : Option String
  message_buffer : List String
  last_seen : Nat
  session_data : List (String × String)
deriving DecidableEq, Repr

/-! ## Client session actor (`client_session_actor.rs`) -/

/-- Observable side effects of `ClientSessionActor` handlers: `do_send`s to the
state manager, frames written to the socket, and the buffer-full warning. -/
inductive Effect where
  | updateClientState (state : ConnectionState) (last_seen_update : Bool)
  | unregisterClient
  | saveSession (s : SessionState)
  | sendText (content : String)
  | ping (payload : String)
  | clientMetrics (sent : Bool) (bytes : Option Nat)
  | warnBufferFull
deriving DecidableEq, Repr

/-- `ClientSessionActor` state (actor addresses are dropped; the state manager
and router are always wired in deployment, so their `do_send`s appear
unconditionally as effects). -/
structure ClientActor where
  client_id : Nat
  authenticated : Bool
  wallet_address : Option String
  last_heartbeat : Nat
  heartbeat_interval : Nat
  heartbeat_timeout : Nat
  reconnect_interval : Nat
  reconnect_attempts : Nat
  max_reconnect_attempts : Nat
  message_buffer : List String
  max_buffer_size : Nat
  session_id : Option String
  session_data : List (String × String)
  message_tracker : MessageTracker
  delivery_confirmation : Bool
  is_connected : Bool
deriving DecidableEq, Repr

namespace ClientActor

/-- `ClientSessionActor::new(client_id)` (the `t0` parameter stands for the
`SystemTime::now()` seconds used in the session-id format string). -/
def new (client_id : Nat) (t0 : Nat) : ClientActor :=
  { client_id := client_id
    authenticated := false
    wallet_address := none
    last_heartbeat := t0
    heartbeat_interval := 5
    heartbeat_timeout := 30
    reconnect_interval := 5
    reconnect_attempts := 0
    max_reconnect_attempts := 5
    message_buffer := []
    max_buffer_size := 100
    session_id := some ("session-" ++ toString client_id ++ "-" ++ toString t0)
    session_data := []
    message_tracker := MessageTracker.new
    delivery_confirmation := true
    is_connected := false }

/-- State changes performed by `Actor::started`: stamp the heartbeat, reset
reconnect attempts, mark connected. -/
def started (a : ClientActor) (now : Nat) : ClientActor :=
  { a with last_heartbeat := now, reconnect_attempts := 0, is_connected := true }

/-- The snapshot built by `ClientSessionActor::save_session_state`. -/
def snapshotOf (a : ClientActor) : SessionState :=
  { client_id := a.client_id
    authenticated := a.authenticated
    wallet_address := a.wallet_address
    message_buffer := a.message_buffer
    last_seen := a.last_heartbeat
    session_data := a.session_data }

/-- `ClientSessionActor::check_and_resend_pending_messages` (takes `&self`:
the actor state is not mutated).  Returns the emitted effects: for each
expired id still present in `pending_acks`, the stored content is written to
the socket verbatim and a sent-metrics update is issued. -/
def checkAndResendEffects (a : ClientActor) (now : Nat) : List Effect :=
  if !a.delivery_confirmation then []
  else
    (a.message_tracker.check_expired now).flatMap (fun msg_id =>
      match AgentBridge.lookupAssoc a.message_tracker.pending_acks msg_id with
      | some (content, _) =>
          [Effect.sendText content, Effect.clientMetrics true (some content.length)]
      | none => [])

/-- `ClientSessionActor::process_ack(msg_id)`: confirm delivery (the two log
lines carry no state). -/
def processAck (a : ClientActor) (msg_id : Nat) : ClientActor :=
  { a with message_tracker := (a.message_tracker.confirm_delivery msg_id).1 }

/-- `ClientSessionActor::buffer_message(content)`.  Returns the new actor
state, the optional tracking id, and the emitted effects. -/
def bufferMessage (a : ClientActor) (content : String) (now : Nat) :
    ClientActor × Option Nat × List Effect :=
  if a.message_buffer.length ≥ a.max_buffer_size then
    (a, none, [Effect.warnBufferFull])
  else
    let idAndTracker :=
      if a.delivery_confirmation then
        let (t1, id) := a.message_tracker.next_id
        (t1.add_pending id content now, some id)
      else
        (a.message_tracker, none)
    ({ a with
        message_tracker := idAndTracker.1
        message_buffer := a.message_buffer ++ [content] },
     idAndTracker.2,
     [Effect.clientMetrics false none])

/-- Result of one firing of the heartbeat interval closure. -/
structure HeartbeatResult where
  actor : ClientActor
  effects : List Effect
  stopped : Bool
deriving DecidableEq, Repr

/-- One firing of the `ctx.run_interval` closure installed by
`ClientSessionActor::heartbeat`.  On timeout (`now - last_heartbeat >
heartbeat_timeout`, strict): save the session, send
`UpdateClientState Reconnecting`, run the retransmit sweep, increment
`reconnect_attempts`; if the new count exceeds `max_reconnect_attempts`, send
`UpdateClientState Disconnected` plus `UnregisterClient` and stop, otherwise
ping `"reconnect"`.  Without timeout: retransmit sweep plus a plain ping. -/
def heartbeatTick (a : ClientActor) (now : Nat) : HeartbeatResult :=
  if now - a.last_heartbeat > a.heartbeat_timeout then
    let pre := [Effect.saveSession a.snapshotOf,
                Effect.updateClientState ConnectionState.Reconnecting true] ++
               a.checkAndResendEffects now
    let a1 := { a with reconnect_attempts := a.reconnect_attempts + 1 }
    if a1.reconnect_attempts > a1.max_reconnect_attempts then
      { actor := a1
        effects := pre ++ [Effect.updateClientState ConnectionState.Disconnected true,
                           Effect.unregisterClient]
        stopped := true }
    else
      { actor := a1, effects := pre ++ [Effect.ping "reconnect"], stopped := false }
  else
    { actor := a, effects := a.checkAndResendEffects now ++ [Effect.ping ""], stopped := false }

/-- `Handler<ClientActorMessage> for ClientSessionActor`: deliver router
content to the socket.  Disconnected: buffer.  Connected with delivery
confirmation and a JSON-object payload: consume a fresh tracker id; if the
payload already contains `"message_id":` it is sent unchanged, otherwise the
id is spliced in before the closing brace; either way the sent string is
recorded as pending under the fresh id. -/
def handleClientActorMessage (a : ClientActor) (content : String) (now : Nat) :
    ClientActor × List Effect :=
  let metrics := [Effect.clientMetrics true (some content.length)]
  if !a.is_connected then
    let (a1, _, effs) := a.bufferMessage content now
    (a1, metrics ++ effs)
  else if a.delivery_confirmation then
    if jsonObjectLike content then
      let (t1, msg_id) := a.message_tracker.next_id
      let content_with_id :=
        if containsSub content "\"message_id\":" then
          content
        else
          let content_without_brace := trimEndBraces content
          if endsWithComma content_without_brace then
            content_without_brace ++ "\"message_id\":" ++ toString msg_id ++ "\x7d"
          else
            content_without_brace ++ ",\"message_id\":" ++ toString msg_id ++ "\x7d"
      let t2 := t1.add_pending msg_id content_with_id now
      ({ a with message_tracker := t2 }, metrics ++ [Effect.sendText content_with_id])
    else
      (a, metrics ++ [Effect.sendText content])
  else
    (a, metrics ++ [Effect.sendText content])

/-- `ClientSessionActor::send_buffered_messages`: pop and send at most 10
buffered messages (the remaining tail is re-scheduled 100 ms later, i.e. as a
further call of this function). -/
def sendBufferedBatch (a : ClientActor) : ClientActor × List Effect :=
  if a.message_buffer.isEmpty then (a, [])
  else
    ({ a with message_buffer := a.message_buffer.drop 10 },
     (a.message_buffer.take 10).flatMap (fun m =>
       [Effect.sendText m, Effect.clientMetrics true (some m.length)]))

/-- `Handler<SessionState> for ClientSessionActor`: when the snapshot's
client id matches, restore authentication, append the saved buffer, replace
the session data, and send the first batch of buffered messages. -/
def handleSessionState (a : ClientActor) (s : SessionState) : ClientActor :=
  if s.client_id = a.client_id then
    let a1 := { a with
      authenticated := s.authenticated
      wallet_address := s.wallet_address
      message_buffer := a.message_buffer ++ s.message_buffer
      session_data := s.session_data }
    if !a1.message_buffer.isEmpty then (sendBufferedBatch a1).1 else a1
  else a

/-- State-manager-directed effects of `Actor::stopped`: save the snapshot,
mark `Disconnected`, unregister (router-directed sends are omitted). -/
def stoppedEffects (a : ClientActor) : List Effect :=
  [Effect.saveSession a.snapshotOf,
   Effect.updateClientState ConnectionState.Disconnected true,
   Effect.unregisterClient]

/-- The operations of the client actor that touch its delivery tracker or
buffers, for the reachable-state invariant. -/
inductive ClientOp where
  | bufferMsg (content : String) (now : Nat)
  | deliver (content : String) (now : Nat)
  | ack (msg_id : Nat)
  | tick (now : Nat)
  | restore (s : SessionState)
  | flushBatch
deriving DecidableEq, Repr

/-- Apply one operation to the actor state (effects projected away). -/
def applyClientOp (a : ClientActor) : ClientOp → ClientActor
  | ClientOp.bufferMsg c now => (a.bufferMessage c now).1
  | ClientOp.deliver c now => (a.handleClientActorMessage c now).1
  | ClientOp.ack msg_id => a.processAck msg_id
  | ClientOp.tick now => (a.heartbeatTick now).actor
  | ClientOp.restore s => a.handleSessionState s
  | ClientOp.flushBatch => (a.sendBufferedBatch).1

/-- The client-actor states reachable from a freshly started actor by the
operations above. -/
inductive Reachable : ClientActor → Prop where
  | init (client_id t0 now : Nat) : Reachable ((ClientActor.new client_id t0).started now)
  | step {a : ClientActor} (op : ClientOp) : Reachable a → Reachable (a.applyClientOp op)

/-- Iterate the router-delivery handler `n` times with a fixed payload
(used to exhibit growth of `pending_acks`). -/
def iterDeliver (a : ClientActor) (content : String) : Nat → ClientActor
  | 0 => a
  | n + 1 => iterDeliver ((a.handleClientActorMessage content 0).1) content n

end ClientActor

/-! ## State manager (`state_manager.rs`) -/

/-- `ClientData` from `state_manager.rs` (actor address dropped). -/
structure ClientRecord where
  state : ConnectionState
  last_seen : Nat
  connected_at : Nat
  authenticated : Bool
  wallet_address : Option String
  reconnect_attempts : Nat
  last_message_at : Option Nat
  message_count_sent : Nat
  message_count_received : Nat
  bytes_sent : Nat
  bytes_received : Nat
  disconnection_count : Nat
deriving DecidableEq, Repr

/-- `AgentData` from `state_manager.rs` (actor address dropped). -/
structure AgentRecord where
  state : ConnectionState
  last_seen : Nat
  connected_at : Nat
  reconnect_attempts : Nat
  last_message_at : Option Nat
  message_count_sent : Nat
  message_count_received : Nat
  bytes_sent : Nat
  bytes_received : Nat
  disconnection_count : Nat
deriving DecidableEq, Repr

/-- A fresh `ClientData` as built by `Handler<RegisterClient>`. -/
def ClientRecord.fresh (auth : Bool) (wallet : Option String) (now : Nat) : ClientRecord :=
  { state := ConnectionState.Connected
    last_seen := now
    connected_at := now
    authenticated := auth
    wallet_address := wallet
    reconnect_attempts := 0
    last_message_at := none
    message_count_sent := 0
    message_count_received := 0
    bytes_sent := 0
    bytes_received := 0
    disconnection_count := 0 }

/-- Per-record body of `Handler<UpdateClientState>`: set the state, stamp
`last_seen` when requested, and on an actual state change bump
`reconnect_attempts` when entering `Reconnecting` and `disconnection_count`
when entering `Disconnected`. -/
def updateClientStateRecord (r : ClientRecord) (s : ConnectionState)
    (last_seen_update : Bool) (now : Nat) : ClientRecord :=
  let r1 := { r with
    state := s
    last_seen := if last_seen_update then now else r.last_seen }
  if r.state ≠ s then
    let r2 :=
      if s = ConnectionState.Reconnecting then
        { r1 with reconnect_attempts := r1.reconnect_attempts + 1 }
      else r1
    if s = ConnectionState.Disconnected then
      { r2 with disconnection_count := r2.disconnection_count + 1 }
    else r2
  else r1

/-- Per-record body of `Handler<ClientActivity>`: stamp `last_seen`, count a
received message, and flip `Disconnected`/`Reconnecting` back to `Connected`
with `reconnect_attempts := 0`. -/
def clientActivityRecord (r : ClientRecord) (is_message : Bool) (now : Nat) : ClientRecord :=
  let r1 := { r with last_seen := now }
  let r2 :=
    if is_message then
      { r1 with
        last_message_at := some now
        message_count_received := r1.message_count_received + 1 }
    else r1
  if r2.state = ConnectionState.Disconnected ∨ r2.state = ConnectionState.Reconnecting then
    { r2 with state := ConnectionState.Connected, reconnect_attempts := 0 }
  else r2

/-- Per-record body of `StateManagerActor::monitor_connections` for one client
entry.  `none` means the entry is removed from the map.  `Connected` past the
timeout becomes `Disconnected` (and a minimal session snapshot is saved —
returned separately by `monitorClientSnapshot`); `Reconnecting` with
`reconnect_attempts ≥ max` becomes `Error`; `Disconnected`/`Error` entries
staler than three timeouts are removed. -/
def monitorClientRecord (r : ClientRecord) (now client_timeout max_reconnect : Nat) :
    Option ClientRecord :=
  match r.state with
  | ConnectionState.Connected =>
      if now - r.last_seen > client_timeout then
        some { r with
          state := ConnectionState.Disconnected
          disconnection_count := r.disconnection_count + 1 }
      else some r
  | ConnectionState.Reconnecting =>
      if r.reconnect_attempts ≥ max_reconnect then
        some { r with state := ConnectionState.Error }
      else some r
  | ConnectionState.Disconnected =>
      if now - r.last_seen > 3 * client_timeout then none else some r
  | ConnectionState.Error =>
      if now - r.last_seen > 3 * client_timeout then none else some r
  | ConnectionState.Idle => some r

/-- Per-record body of `monitor_connections` for one agent entry (same shape
as the client branch, with the agent timeout). -/
def monitorAgentRecord (r : AgentRecord) (now agent_timeout max_reconnect : Nat) :
    Option AgentRecord :=
  match r.state with
  | ConnectionState.Connected =>
      if now - r.last_seen > agent_timeout then
        some { r with
          state := ConnectionState.Disconnected
          disconnection_count := r.disconnection_count + 1 }
      else some r
  | ConnectionState.Reconnecting =>
      if r.reconnect_attempts ≥ max_reconnect then
        some { r with state := ConnectionState.Error }
      else some r
  | ConnectionState.Disconnected =>
      if now - r.last_seen > 3 * agent_timeout then none else some r
  | ConnectionState.Error =>
      if now - r.last_seen > 3 * agent_timeout then none else some r
  | ConnectionState.Idle => some r

/-- Per-record body of `Handler<UpdateAgentState>`. -/
def updateAgentStateRecord (r : AgentRecord) (s : ConnectionState)
    (last_seen_update : Bool) (now : Nat) : AgentRecord :=
  let r1 := { r with
    state := s
    last_seen := if last_seen_update then now else r.last_seen }
  if r.state ≠ s then
    let r2 :=
      if s = ConnectionState.Reconnecting then
        { r1 with reconnect_attempts := r1.reconnect_attempts + 1 }
      else r1
    if s = ConnectionState.Disconnected then
      { r2 with disconnection_count := r2.disconnection_count + 1 }
    else r2
  else r1

/-- Fold a list of `UpdateClientState` messages `(state, last_seen_update, now)`
over one registry record. -/
def applyClientUpdates (r : ClientRecord) (evs : List (ConnectionState × Bool × Nat)) :
    ClientRecord :=
  evs.foldl (fun acc e => updateClientStateRecord acc e.1 e.2.1 e.2.2) r

/-- All intermediate records along such a fold (initial record included). -/
def clientUpdateStates (r : ClientRecord) (evs : List (ConnectionState × Bool × Nat)) :
    List ClientRecord :=
  evs.scanl (fun acc e => updateClientStateRecord acc e.1 e.2.1 e.2.2) r

/-- `StateManagerActor::new()` configuration constants. -/
def smClientTimeout : Nat := 60
def smAgentTimeout : Nat := 120
def smMaxReconnectAttempts : Nat := 10
def smSessionTtl : Nat := 3600

/-- The state manager's mutable maps (`clients`, `agents`, `sessions`). -/
structure StateManager where
  clients : List (Nat × ClientRecord)
  agents : List (String × AgentRecord)
  sessions : List (Nat × SessionState)
deriving Repr

/-- `Handler<SaveSessionState>`: `sessions.insert(state.client_id, state)`. -/
def saveSessionState (sm : StateManager) (s : SessionState) : StateManager :=
  { sm with sessions := insertAssoc sm.sessions s.client_id s }

/-- `Handler<GetSessionState>`: return a clone of the stored snapshot; the
`sessions` map is not modified (the handler only calls `get`). -/
def getSessionState (sm : StateManager) (client_id : Nat) :
    Option SessionState × StateManager :=
  (lookupAssoc sm.sessions client_id, sm)

/-- The minimal snapshot `Handler<UnregisterClient>` builds from a registry
record (the client's own buffer is not reachable from the state manager). -/
def minimalSnapshot (client_id : Nat) (c : ClientRecord) : SessionState :=
  { client_id := client_id
    authenticated := c.authenticated
    wallet_address := c.wallet_address
    message_buffer := []
    last_seen := c.last_seen
    session_data := [] }

/-- `Handler<UnregisterClient> for StateManagerActor`: save a minimal session
snapshot, then mark the record `Disconnected`, stamp `last_seen := now`, and
bump `disconnection_count` — the record itself is kept in the map. -/
def unregisterClient (sm : StateManager) (client_id : Nat) (now : Nat) : StateManager :=
  let sm1 :=
    match lookupAssoc sm.clients client_id with
    | some c => { sm with sessions := insertAssoc sm.sessions client_id (minimalSnapshot client_id c) }
    | none => sm
  { sm1 with
    clients := updateAssoc sm1.clients client_id (fun c =>
      { c with
        state := ConnectionState.Disconnected
        last_seen := now
        disconnection_count := c.disconnection_count + 1 }) }

/-! ## Router (`router_actor.rs`) -/

/-- `AgentMessage` from `common/src/messages.rs` (`Uuid` as `Nat`). -/
structure AgentMessage where
  target_client_id : Option Nat
  content : String
  timestamp : Nat
  message_id : Option Nat
  requires_ack : Bool
  message_type : Option String
deriving DecidableEq, Repr

/-- serde-JSON rendering of `AgentMessage` in declaration order
(`message_id` and `message_type` are `skip_serializing_if = Option::is_none`;
string escaping is elided — claim-irrelevant). -/
def serializeAgentMessage (m : AgentMessage) : String :=
  "\x7b\"target_client_id\":" ++
    (match m.target_client_id with
     | some id => "\"" ++ toString id ++ "\""
     | none => "null") ++
  ",\"content\":\"" ++ m.content ++ "\"" ++
  ",\"timestamp\":" ++ toString m.timestamp ++
  (match m.message_id with
   | some id => ",\"message_id\":" ++ toString id
   | none => "") ++
  ",\"requires_ack\":" ++ (if m.requires_ack then "true" else "false") ++
  (match m.message_type with
   | some t => ",\"message_type\":\"" ++ t ++ "\""
   | none => "") ++
  "\x7d"

/-- Observable effects of `RouterActor` handlers.  `sendToClient` /
`sendToAgent` are the attempted `try_send`s (keyed by the registered actor
address, modelled as `Nat`). -/
inductive RouterEffect where
  | sendToClient (addr : Nat) (content : String)
  | sendToAgent (addr : Nat) (content : String)
  | warnClientNotFound (client_id : Nat)
  | warnNoAgents (client_id : Nat)
deriving DecidableEq, Repr

/-- `RouterActor` state: the live-client and live-agent maps plus the
hard-coded default agent id. -/
structure RouterState where
  clients : List (Nat × Nat)
  agents : List (String × Nat)
  default_agent_id : Option String
deriving DecidableEq, Repr

/-- `RouterActor::new()`. -/
def RouterState.new : RouterState :=
  { clients := [], agents := [], default_agent_id := some "agent1" }

/-- `Handler<AgentMessage> for RouterActor`.  Unicast (`Some id`): serialize
once and `try_send` to the client actor when the id is in the live map,
otherwise only a warning; the router's own maps are never touched.
Broadcast (`None`): serialize once, `try_send` the same buffer to every live
client. -/
def handleAgentMessage (r : RouterState) (msg : AgentMessage) :
    RouterState × List RouterEffect :=
  match msg.target_client_id with
  | some client_id =>
      match lookupAssoc r.clients client_id with
      | some addr => (r, [RouterEffect.sendToClient addr (serializeAgentMessage msg)])
      | none => (r, [RouterEffect.warnClientNotFound client_id])
  | none =>
      let content := serializeAgentMessage msg
      (r, r.clients.map (fun e => RouterEffect.sendToClient e.2 content))

/-! ## Web-server client registry (`web-server/src/client_registry.rs`) -/

/-- `ClientSession` from `common/src/models/session.rs` (timestamps as `Int`
seconds since epoch, matching `chrono` second arithmetic). -/
structure ClientSession where
  client_id : Nat
  session_token : String
  created_at : Int
  last_active : Int
  is_authenticated : Bool
  wallet_address : Option String
  metadata : List (String × String)
deriving DecidableEq, Repr

/-- Session metrics kept by `ClientRegistryActor`. -/
structure SessionMetrics where
  total_sessions : Nat
  anonymous_sessions : Nat
  authenticated_sessions : Nat
deriving DecidableEq, Repr

/-- `ClientRegistryActor` state: token → session, client id → token, metrics.
(`usize` decrements are modelled with truncated `Nat` subtraction.) -/
structure ClientRegistry where
  sessions : List (String × ClientSession)
  client_lookup : List (Nat × String)
  metrics : SessionMetrics
deriving DecidableEq, Repr

/-- `Handler<InvalidateClientSession>`: remove the token's session; when one
was present also drop its client-id index entry and decrement the metrics,
returning `true`; otherwise return `false` with nothing changed. -/
def invalidateClientSession (r : ClientRegistry) (token : String) :
    ClientRegistry × Bool :=
  match lookupAssoc r.sessions token with
  | some session =>
      ({ sessions := removeAssoc r.sessions token
         client_lookup := removeAssoc r.client_lookup session.client_id
         metrics :=
           { total_sessions := r.metrics.total_sessions - 1
             anonymous_sessions :=
               if session.is_authenticated then r.metrics.anonymous_sessions
               else r.metrics.anonymous_sessions - 1
             authenticated_sessions :=
               if session.is_authenticated then r.metrics.authenticated_sessions - 1
               else r.metrics.authenticated_sessions } },
       true)
  | none => (r, false)

/-- HTTP status produced by `invalidate_session` in `api/sessions.rs` for a
request that carries a session cookie: 200 when the registry reports
invalidation, 404 (`"Session not found"`) when it reports `false`. -/
def invalidateSessionStatus (r : ClientRegistry) (token : String) :
    ClientRegistry × Nat :=
  let res := invalidateClientSession r token
  (res.1, if res.2 then 200 else 404)

/-! ## Association-list lemmas -/

theorem lookupAssoc_cons {κ α : Type} [DecidableEq κ]
    (e : κ × α) (t : List (κ × α)) (k : κ) :
    lookupAssoc (e :: t) k = if e.1 = k then some e.2 else lookupAssoc t k := by
  by_cases h : e.1 = k <;> simp [lookupAssoc, List.find?, h]

theorem removeAssoc_cons {κ α : Type} [DecidableEq κ]
    (e : κ × α) (t : List (κ × α)) (k : κ) :
    removeAssoc (e :: t) k = if e.1 = k then removeAssoc t k else e :: removeAssoc t k := by
  by_cases h : e.1 = k <;> simp [removeAssoc, List.filter_cons, h]

theorem lookupAssoc_insertAssoc_self {κ α : Type} [DecidableEq κ]
    (m : List (κ × α)) (k : κ) (v : α) :
    lookupAssoc (insertAssoc m k v) k = some v := by
  simp [lookupAssoc, insertAssoc, List.find?]

theorem lookupAssoc_removeAssoc_self {κ α : Type} [DecidableEq κ]
    (m : List (κ × α)) (k : κ) :
    lookupAssoc (removeAssoc m k) k = none := by
  induction m with
  | nil => rfl
  | cons e t ih =>
    rw [removeAssoc_cons]
    by_cases h : e.1 = k
    · simpa [h] using ih
    · rw [if_neg h, lookupAssoc_cons, if_neg h]
      exact ih

theorem lookupAssoc_removeAssoc_ne {κ α : Type} [DecidableEq κ]
    (m : List (κ × α)) (k k' : κ) (h : k ≠ k') :
    lookupAssoc (removeAssoc m k') k = lookupAssoc m k := by
  induction m with
  | nil => rfl
  | cons e t ih =>
    rw [removeAssoc_cons, lookupAssoc_cons]
    by_cases he : e.1 = k'
    · have hk : ¬ e.1 = k := fun hk => h (hk ▸ he)
      rw [if_pos he, if_neg hk]
      exact ih
    · rw [if_neg he, lookupAssoc_cons]
      by_cases hk : e.1 = k
      · rw [if_pos hk, if_pos hk]
      · rw [if_neg hk, if_neg hk]
        exact ih

theorem lookupAssoc_updateAssoc_self {κ α : Type} [DecidableEq κ]
    (m : List (κ × α)) (k : κ) (f : α → α) (v : α)
    (h : lookupAssoc m k = some v) :
    lookupAssoc (updateAssoc m k f) k = some (f v) := by
  induction m with
  | nil => simp [lookupAssoc] at h
  | cons e t ih =>
    rw [lookupAssoc_cons] at h
    by_cases he : e.1 = k
    · rw [if_pos he] at h
      simp only [updateAssoc, List.map_cons, if_pos he]
      rw [lookupAssoc_cons]
      simp [he, Option.some_inj.mp h]
    · rw [if_neg he] at h
      simp only [updateAssoc, List.map_cons, if_neg he]
      rw [lookupAssoc_cons, if_neg he]
      exact ih h

theorem mem_insertAssoc {κ α : Type} [DecidableEq κ]
    {m : List (κ × α)} {k : κ} {v : α} {x : κ × α}
    (h : x ∈ insertAssoc m k v) : x = (k, v) ∨ x ∈ m := by
  rcases List.mem_cons.mp h with h' | h'
  · exact Or.inl h'
  · exact Or.inr (List.mem_filter.mp h').1

theorem mem_removeAssoc {κ α : Type} [DecidableEq κ]
    {m : List (κ × α)} {k : κ} {x : κ × α}
    (h : x ∈ removeAssoc m k) : x ∈ m :=
  (List.mem_filter.mp h).1

theorem mem_of_lookupAssoc {κ α : Type} [DecidableEq κ]
    {m : List (κ × α)} {k : κ} {v : α}
    (h : lookupAssoc m k = some v) : (k, v) ∈ m := by
  unfold lookupAssoc at h
  cases hf : m.find? (fun e => e.1 = k) with
  | none => rw [hf] at h; exact absurd h (by simp)
  | some e =>
    rw [hf] at h
    have hm := List.mem_of_find?_eq_some hf
    have hp : e.1 = k := by simpa using List.find?_some hf
    have hv : e.2 = v := by simpa using h
    have : (k, v) = e := by
      cases e
      simp_all
    rw [this]
    exact hm

/-! ## Delivery-tracker lemmas -/

/-- Membership characterisation of `MessageTracker::check_expired`. -/
theorem mem_check_expired_iff (t : MessageTracker) (now id : Nat) :
    id ∈ t.check_expired now ↔
      ∃ e ∈ t.pending_acks, e.1 = id ∧ now - e.2.2 > t.ack_timeout := by
  unfold MessageTracker.check_expired
  constructor
  · intro h
    rcases List.mem_map.mp h with ⟨e, he, rfl⟩
    rcases List.mem_filter.mp he with ⟨hm, hp⟩
    exact ⟨e, hm, rfl, by simpa using hp⟩
  · rintro ⟨e, hm, rfl, hp⟩
    exact List.mem_map.mpr ⟨e, List.mem_filter.mpr ⟨hm, by simpa using hp⟩, rfl⟩

/-- Every effect of the retransmit sweep is a socket write or a metrics
update; in particular the sweep never unregisters or changes state. -/
theorem checkAndResend_effects_shape (a : ClientActor) (now : Nat) :
    ∀ e ∈ a.checkAndResendEffects now,
      (∃ c, e = Effect.sendText c) ∨ ∃ s b, e = Effect.clientMetrics s b := by
  intro e he
  unfold ClientActor.checkAndResendEffects at he
  by_cases hd : a.delivery_confirmation
  · rw [if_neg (by simp [hd])] at he
    rcases List.mem_flatMap.mp he with ⟨id, _, hin⟩
    cases hl : lookupAssoc a.message_tracker.pending_acks id with
    | none => rw [hl] at hin; cases hin
    | some p =>
      rw [hl] at hin
      rcases List.mem_cons.mp hin with rfl | hin'
      · exact Or.inl ⟨p.1, rfl⟩
      · rcases List.mem_cons.mp hin' with rfl | h0
        · exact Or.inr ⟨true, some p.1.length, rfl⟩
        · cases h0
  · rw [if_pos (by simp [hd])] at he
    cases he

theorem unregister_not_mem_checkAndResend (a : ClientActor) (now : Nat) :
    Effect.unregisterClient ∉ a.checkAndResendEffects now := by
  intro h
  rcases checkAndResend_effects_shape a now _ h with ⟨c, hc⟩ | ⟨s, b, hc⟩ <;> cases hc

/-! ## Claim C1 -/

/-- C1, counterexample.  The claim says that a Connected client actor whose
heartbeat timeout fires transitions to Disconnected, unregisters, and stops,
without entering Reconnecting.  On the code, a freshly started actor
(`last_heartbeat = 0`, `reconnect_attempts = 0`) whose timer fires at
`now = 31 > 30`: it sends `UpdateClientState Reconnecting`, does not send
`UnregisterClient`, does not stop, and merely increments
`reconnect_attempts` to 1. -/
theorem c1_counterexample :
    Effect.updateClientState ConnectionState.Reconnecting true ∈
      (((ClientActor.new 1 0).started 0).heartbeatTick 31).effects ∧
    Effect.unregisterClient ∉ (((ClientActor.new 1 0).started 0).heartbeatTick 31).effects ∧
    (((ClientActor.new 1 0).started 0).heartbeatTick 31).stopped = false ∧
    (((ClientActor.new 1 0).started 0).heartbeatTick 31).actor.reconnect_attempts = 1 := by
  refine ⟨by decide, by decide, by decide, by decide⟩

/-- C1, amended: when the heartbeat timeout fires
(`now - last_heartbeat > heartbeat_timeout`, strict), the client actor saves
its session, transitions to Reconnecting and increments `reconnect_attempts`;
only when the incremented count exceeds `max_reconnect_attempts` (5) does it
additionally send `UpdateClientState Disconnected` plus `UnregisterClient`
and stop; otherwise it does not unregister and keeps running. -/
theorem c1_heartbeat_timeout_behaviour (a : ClientActor) (now : Nat)
    (h : now - a.last_heartbeat > a.heartbeat_timeout) :
    (a.heartbeatTick now).actor.reconnect_attempts = a.reconnect_attempts + 1 ∧
    Effect.saveSession a.snapshotOf ∈ (a.heartbeatTick now).effects ∧
    Effect.updateClientState ConnectionState.Reconnecting true ∈ (a.heartbeatTick now).effects ∧
    ((a.heartbeatTick now).stopped = true ↔
      a.reconnect_attempts + 1 > a.max_reconnect_attempts) ∧
    (a.reconnect_attempts + 1 > a.max_reconnect_attempts →
      Effect.updateClientState ConnectionState.Disconnected true ∈ (a.heartbeatTick now).effects ∧
      Effect.unregisterClient ∈ (a.heartbeatTick now).effects) ∧
    (a.reconnect_attempts + 1 ≤ a.max_reconnect_attempts →
      Effect.unregisterClient ∉ (a.heartbeatTick now).effects) := by
  unfold ClientActor.heartbeatTick
  rw [if_pos h]
  by_cases hb : a.reconnect_attempts + 1 > a.max_reconnect_attempts
  · rw [if_pos hb]
    refine ⟨rfl, ?_, ?_, by simp [hb], fun _ => ⟨?_, ?_⟩, fun hle => absurd hb (by omega)⟩ <;>
      simp [List.mem_append]
  · rw [if_neg hb]
    refine ⟨rfl, ?_, ?_, by simp [hb], fun hgt => absurd hgt hb, fun _ => ?_⟩
    · simp [List.mem_append]
    · simp [List.mem_append]
    · intro hmem
      rcases List.mem_append.mp hmem with hpre | hping
      · rcases List.mem_append.mp hpre with hhd | hsweep
        · rcases List.mem_cons.mp hhd with h0 | h0'
          · cases h0
          · rcases List.mem_cons.mp h0' with h1 | h1'
            · cases h1
            · cases h1'
        · exact unregister_not_mem_checkAndResend a now hsweep
      · rcases List.mem_cons.mp hping with h0 | h0
        · cases h0
        · cases h0

/-- C1 witness: the amended theorem applied to the concrete actor of the
counterexample (timeout fires at `now = 31`). -/
theorem c1_heartbeat_timeout_behaviour_witness :
    ((((ClientActor.new 1 0).started 0).heartbeatTick 31).actor.reconnect_attempts =
      ((ClientActor.new 1 0).started 0).reconnect_attempts + 1) ∧
    ((((ClientActor.new 1 0).started 0).heartbeatTick 31).stopped = true ↔
      ((ClientActor.new 1 0).started 0).reconnect_attempts + 1 >
        ((ClientActor.new 1 0).started 0).max_reconnect_attempts) :=
  ⟨(c1_heartbeat_timeout_behaviour ((ClientActor.new 1 0).started 0) 31 (by decide)).1,
   (c1_heartbeat_timeout_behaviour ((ClientActor.new 1 0).started 0) 31 (by decide)).2.2.2.1⟩

/-! ## Claim C2 -/

/-- The event trace for the C2 counterexample: twenty-one
`UpdateClientState` messages alternating Reconnecting / Disconnected (the
actor re-enters Reconnecting after each disconnect notice), with
`last_seen_update = true`, at seconds 1..21. -/
def c2Trace : List (ConnectionState × Bool × Nat) :=
  (List.range 21).map (fun i =>
    (if i % 2 = 0 then ConnectionState.Reconnecting else ConnectionState.Disconnected,
     true, i + 1))

/-- C2, counterexample.  The claim says `reconnect_attempts` never exceeds
10 without the transition to Error.  Starting from a freshly registered
client record, the trace `c2Trace` of `UpdateClientState` messages drives
`reconnect_attempts` to 11 while the record ends in Reconnecting and is
never in the Error state at any point of the trace: the 10-attempt cap is
only enforced when `monitor_connections` happens to run. -/
theorem c2_counterexample :
    (applyClientUpdates (ClientRecord.fresh true none 0) c2Trace).reconnect_attempts = 11 ∧
    (applyClientUpdates (ClientRecord.fresh true none 0) c2Trace).state =
      ConnectionState.Reconnecting ∧
    ∀ r ∈ clientUpdateStates (ClientRecord.fresh true none 0) c2Trace,
      r.state ≠ ConnectionState.Error := by
  refine ⟨by decide, by decide, by decide⟩

/-- C2, amended: the 10-attempt bound is enforced by the periodic
`monitor_connections` sweep, not at the moment the counter reaches 10.  When
the sweep observes a client or agent record in Reconnecting with
`reconnect_attempts ≥ 10` (`max_reconnect_attempts`), it transitions the
record to Error (the record is dropped only by a later sweep, once it has
stayed non-Connected for more than three timeouts); between sweeps
`reconnect_attempts` can exceed 10. -/
theorem c2_monitor_caps_reconnect_attempts :
    (∀ (r : ClientRecord) (now : Nat),
       r.state = ConnectionState.Reconnecting →
       r.reconnect_attempts ≥ smMaxReconnectAttempts →
       monitorClientRecord r now smClientTimeout smMaxReconnectAttempts =
         some { r with state := ConnectionState.Error }) ∧
    (∀ (r : AgentRecord) (now : Nat),
       r.state = ConnectionState.Reconnecting →
       r.reconnect_attempts ≥ smMaxReconnectAttempts →
       monitorAgentRecord r now smAgentTimeout smMaxReconnectAttempts =
         some { r with state := ConnectionState.Error }) ∧
    (∀ (r : ClientRecord) (now : Nat),
       r.state = ConnectionState.Error →
       now - r.last_seen > 3 * smClientTimeout →
       monitorClientRecord r now smClientTimeout smMaxReconnectAttempts = none) := by
  refine ⟨fun r now hs hge => ?_, fun r now hs hge => ?_, fun r now hs hst => ?_⟩
  · simp [monitorClientRecord, hs, hge]
  · simp [monitorAgentRecord, hs, hge]
  · simp [monitorClientRecord, hs, hst]

/-- C2 witness: the amended theorem applied to a concrete Reconnecting
client record with 10 attempts, a concrete Reconnecting agent record with 10
attempts, and a concrete stale Error record. -/
theorem c2_monitor_caps_reconnect_attempts_witness :
    (monitorClientRecord
       { ClientRecord.fresh true none 0 with
           state := ConnectionState.Reconnecting, reconnect_attempts := 10 }
       5 smClientTimeout smMaxReconnectAttempts =
     some { ClientRecord.fresh true none 0 with
              state := ConnectionState.Error, reconnect_attempts := 10 }) ∧
    (monitorClientRecord
       { ClientRecord.fresh true none 0 with state := ConnectionState.Error }
       200 smClientTimeout smMaxReconnectAttempts = none) :=
  ⟨c2_monitor_caps_reconnect_attempts.1
     { ClientRecord.fresh true none 0 with
         state := ConnectionState.Reconnecting, reconnect_attempts := 10 }
     5 (by decide) (by decide),
   c2_monitor_caps_reconnect_attempts.2.2
     { ClientRecord.fresh true none 0 with state := ConnectionState.Error }
     200 (by decide) (by decide)⟩

/-! ## Claim C3 -/

/-- A connected client actor holding one unacknowledged tracked message
(id 1, content `"m"`, sent at second 0); its heartbeat is recent enough
(second 10) that the sweeps below run in the non-timeout branch. -/
def c3Actor : ClientActor :=
  { (ClientActor.new 1 0).started 10 with
      message_tracker :=
        { MessageTracker.new with
            last_sent_id := 1
            pending_acks := [(1, "m", 0)] } }

/-- C3, counterexample.  The claim says the retransmit sweep resets the
expired entry's `sent_time`, so an unacknowledged message is resent at most
once per 30 s timeout interval.  On the code,
`check_and_resend_pending_messages` takes `&self` and never writes
`sent_time`: after the sweep at second 31 resends `"m"`, the entry still
carries `sent_time = 0`, and the very next sweep one second later resends
`"m"` again — two resends 1 s apart. -/
theorem c3_counterexample :
    Effect.sendText "m" ∈ (c3Actor.heartbeatTick 31).effects ∧
    (c3Actor.heartbeatTick 31).actor = c3Actor ∧
    lookupAssoc (c3Actor.heartbeatTick 31).actor.message_tracker.pending_acks 1 =
      some ("m", 0) ∧
    Effect.sendText "m" ∈ ((c3Actor.heartbeatTick 31).actor.heartbeatTick 32).effects := by
  refine ⟨by decide, by decide, by decide, by decide⟩

/-- C3, amended: `check_expired(now)` returns exactly the ids whose
`sent_time` is strictly more than the timeout (default 30 s) in the past,
and the sweep resends each expired id's stored content verbatim — but it
does not reset `sent_time`, so once expired an unacknowledged message is
resent on every sweep, not at most once per timeout interval. -/
theorem c3_expired_query_and_resend (a : ClientActor) (now : Nat) :
    MessageTracker.new.ack_timeout = 30 ∧
    (∀ id, id ∈ a.message_tracker.check_expired now ↔
       ∃ e ∈ a.message_tracker.pending_acks,
         e.1 = id ∧ now - e.2.2 > a.message_tracker.ack_timeout) ∧
    (a.delivery_confirmation = true →
      ∀ id content st,
        id ∈ a.message_tracker.check_expired now →
        lookupAssoc a.message_tracker.pending_acks id = some (content, st) →
        Effect.sendText content ∈ a.checkAndResendEffects now) := by
  refine ⟨rfl, fun id => mem_check_expired_iff a.message_tracker now id, ?_⟩
  intro hd id content st hexp hl
  unfold ClientActor.checkAndResendEffects
  rw [if_neg (by simp [hd])]
  exact List.mem_flatMap.mpr ⟨id, hexp, by rw [hl]; exact List.mem_cons_self _ _⟩

/-- C3 witness: the amended theorem applied to `c3Actor` at second 31,
resending the expired message `"m"`. -/
theorem c3_expired_query_and_resend_witness :
    Effect.sendText "m" ∈ c3Actor.checkAndResendEffects 31 :=
  (c3_expired_query_and_resend c3Actor 31).2.2 (by decide) 1 "m" 0 (by decide) (by decide)

/-! ## Claim C4 -/

/-- The snapshot a disconnecting client actor (with two buffered messages)
saves. -/
def c4Snapshot : SessionState :=
  ClientActor.snapshotOf
    { (ClientActor.new 1 0).started 0 with message_buffer := ["m1", "m2"] }

/-- The session-manager store right after that snapshot is saved. -/
def c4Store : StateManager :=
  saveSessionState { clients := [], agents := [], sessions := [] } c4Snapshot

/-- C4, counterexample.  The claim says the snapshot is cleared on delivery,
so a second connect receives no snapshot.  On the code,
`Handler<GetSessionState>` only calls `sessions.get` and clones: after a
first connect retrieves the snapshot, a second retrieval against the
resulting store still returns the same snapshot instead of `none`. -/
theorem c4_counterexample :
    (getSessionState c4Store 1).1 = some c4Snapshot ∧
    (getSessionState (getSessionState c4Store 1).2 1).1 = some c4Snapshot ∧
    ¬ (getSessionState (getSessionState c4Store 1).2 1).1 = none := by
  refine ⟨by decide, by decide, by decide⟩

/-- C4, amended: on disconnect the actor saves a snapshot (authenticated
flag, wallet address, outbound buffer, last_seen, session data) keyed by its
client id, and the next connect for that client id retrieves exactly that
snapshot — but the store is NOT cleared by the retrieval, so every further
connect retrieves the same snapshot (until it is overwritten or expires). -/
theorem c4_snapshot_saved_and_redelivered (sm : StateManager) (a : ClientActor) :
    Effect.saveSession a.snapshotOf ∈ a.stoppedEffects ∧
    (getSessionState (saveSessionState sm a.snapshotOf) a.client_id).1 =
      some a.snapshotOf ∧
    (getSessionState (saveSessionState sm a.snapshotOf) a.client_id).2 =
      saveSessionState sm a.snapshotOf ∧
    (getSessionState
        (getSessionState (saveSessionState sm a.snapshotOf) a.client_id).2
        a.client_id).1 = some a.snapshotOf := by
  refine ⟨List.mem_cons_self _ _, ?_, rfl, ?_⟩ <;>
    exact lookupAssoc_insertAssoc_self sm.sessions a.client_id a.snapshotOf

/-! ## Claim C5 -/

theorem trackerInv_insert_succ (t : MessageTracker) (c : String) (now : Nat)
    (h : ∀ e ∈ t.pending_acks, e.1 ≤ t.last_sent_id) :
    ∀ e ∈ insertAssoc t.pending_acks (t.last_sent_id + 1) (c, now),
      e.1 ≤ t.last_sent_id + 1 := by
  intro e he
  rcases mem_insertAssoc he with rfl | hm
  · exact Nat.le_refl _
  · exact Nat.le_trans (h e hm) (Nat.le_succ _)

/-- Every tracker-touching client-actor operation preserves the invariant
that each pending id is at most `last_sent_id`. -/
theorem inv_applyClientOp (a : ClientActor) (op : ClientActor.ClientOp)
    (h : ∀ e ∈ a.message_tracker.pending_acks, e.1 ≤ a.message_tracker.last_sent_id) :
    ∀ e ∈ (a.applyClientOp op).message_tracker.pending_acks,
      e.1 ≤ (a.applyClientOp op).message_tracker.last_sent_id := by
  cases op with
  | bufferMsg c now =>
    simp only [ClientActor.applyClientOp]
    unfold ClientActor.bufferMessage
    by_cases hfull : a.message_buffer.length ≥ a.max_buffer_size
    · rw [if_pos hfull]; exact h
    · rw [if_neg hfull]
      by_cases hd : a.delivery_confirmation = true
      · simp only [hd, if_true, MessageTracker.next_id, MessageTracker.add_pending]
        exact trackerInv_insert_succ a.message_tracker c now h
      · simp only [if_neg hd]
        exact h
  | deliver c now =>
    simp only [ClientActor.applyClientOp]
    unfold ClientActor.handleClientActorMessage
    by_cases hconn : a.is_connected = true
    · rw [if_neg (by simp [hconn])]
      by_cases hd : a.delivery_confirmation = true
      · rw [if_pos hd]
        by_cases hj : jsonObjectLike c = true
        · rw [if_pos hj]
          simp only [MessageTracker.next_id, MessageTracker.add_pending]
          by_cases hm : containsSub c "\"message_id\":" = true
          · simp only [hm, if_true]
            exact trackerInv_insert_succ a.message_tracker c now h
          · simp only [if_neg hm]
            exact trackerInv_insert_succ a.message_tracker _ now h
        · rw [if_neg hj]; exact h
      · rw [if_neg hd]; exact h
    · rw [if_pos (by simp [hconn])]
      unfold ClientActor.bufferMessage
      by_cases hfull : a.message_buffer.length ≥ a.max_buffer_size
      · rw [if_pos hfull]; exact h
      · rw [if_neg hfull]
        by_cases hd : a.delivery_confirmation = true
        · simp only [hd, if_true, MessageTracker.next_id, MessageTracker.add_pending]
          exact trackerInv_insert_succ a.message_tracker c now h
        · simp only [if_neg hd]
          exact h
  | ack msg_id =>
    simp only [ClientActor.applyClientOp]
    unfold ClientActor.processAck MessageTracker.confirm_delivery
    intro e he
    exact h e (mem_removeAssoc he)
  | tick now =>
    simp only [ClientActor.applyClientOp]
    unfold ClientActor.heartbeatTick
    by_cases ht : now - a.last_heartbeat > a.heartbeat_timeout
    · rw [if_pos ht]
      by_cases hb : a.reconnect_attempts + 1 > a.max_reconnect_attempts
      · rw [if_pos hb]; exact h
      · rw [if_neg hb]; exact h
    · rw [if_neg ht]; exact h
  | restore s =>
    simp only [ClientActor.applyClientOp]
    unfold ClientActor.handleSessionState ClientActor.sendBufferedBatch
    by_cases hc : s.client_id = a.client_id
    · rw [if_pos hc]
      by_cases hb : (a.message_buffer ++ s.message_buffer).isEmpty = true
      · simp only [hb]
        exact h
      · simp only [hb]
        exact h
    · rw [if_neg hc]; exact h
  | flushBatch =>
    simp only [ClientActor.applyClientOp]
    unfold ClientActor.sendBufferedBatch
    by_cases hb : a.message_buffer.isEmpty = true
    · rw [if_pos hb]; exact h
    · rw [if_neg hb]; exact h

/-- C5, amended (first half of the claim): in every reachable client-actor
state, every message id in `pending_acks` is at most `last_sent_id`. -/
theorem c5_pending_ids_le_last_sent (a : ClientActor) (h : ClientActor.Reachable a) :
    ∀ e ∈ a.message_tracker.pending_acks, e.1 ≤ a.message_tracker.last_sent_id := by
  induction h with
  | init client_id t0 now =>
    intro e he
    cases he
  | step op h ih =>
    exact inv_applyClientOp _ op ih

/-- C5 witness: the invariant applied to the reachable state after one
router delivery, at the concrete pending entry it created. -/
theorem c5_pending_ids_le_last_sent_witness :
    (1 : Nat) ≤
      (ClientActor.applyClientOp ((ClientActor.new 1 0).started 0)
          (ClientActor.ClientOp.deliver "\x7b\"a\":1\x7d" 5)).message_tracker.last_sent_id :=
  c5_pending_ids_le_last_sent
    (ClientActor.applyClientOp ((ClientActor.new 1 0).started 0)
      (ClientActor.ClientOp.deliver "\x7b\"a\":1\x7d" 5))
    (ClientActor.Reachable.step _ (ClientActor.Reachable.init 1 0 0))
    (1, "\x7b\"a\":1,\"message_id\":1\x7d", 5) (by decide)

theorem reachable_iterDeliver (content : String) :
    ∀ (n : Nat) (a : ClientActor), ClientActor.Reachable a →
      ClientActor.Reachable (ClientActor.iterDeliver a content n)
  | 0, _, h => h
  | n + 1, _, h =>
    reachable_iterDeliver content n _
      (ClientActor.Reachable.step (ClientActor.ClientOp.deliver content 0) h)

/-- The reachable state after 101 router deliveries of a JSON payload that
already carries a `"message_id"` field, to a connected actor with delivery
confirmation on. -/
def c5Overflow : ClientActor :=
  ClientActor.iterDeliver ((ClientActor.new 1 0).started 0) "\x7b\"message_id\":0\x7d" 101

set_option maxRecDepth 8000 in
/-- C5, counterexample.  The claim bounds `pending_acks` by the buffer cap
of 100.  On the code, the message-id-injection path
(`Handler<ClientActorMessage>` while connected) adds a pending entry per
delivered JSON payload with no cap check — the cap applies only to
`message_buffer` — so after 101 deliveries the reachable state `c5Overflow`
holds 101 pending entries. -/
theorem c5_counterexample :
    ClientActor.Reachable c5Overflow ∧
    c5Overflow.message_tracker.pending_acks.length = 101 ∧
    c5Overflow.max_buffer_size = 100 := by
  refine ⟨reachable_iterDeliver _ 101 _ (ClientActor.Reachable.init 1 0 0), by decide, by decide⟩

/-! ## Claim C6 -/

/-- C6, confirmed: when the outbound buffer already holds `max_buffer_size`
(100) messages, `buffer_message` returns `None` with only the buffer-full
warning and the actor — buffer, tracker and all — is unchanged. -/
theorem c6_buffer_full_drops_newest (a : ClientActor) (content : String) (now : Nat)
    (hcap : a.max_buffer_size = 100) (hlen : a.message_buffer.length = 100) :
    a.bufferMessage content now = (a, none, [Effect.warnBufferFull]) := by
  unfold ClientActor.bufferMessage
  rw [if_pos (by omega)]

/-- A connected client actor whose buffer is at its capacity of 100. -/
def c6FullActor : ClientActor :=
  { (ClientActor.new 1 0).started 0 with message_buffer := List.replicate 100 "m" }

/-- C6 witness: the 101st enqueue on the concrete full actor is rejected
with the buffer untouched. -/
theorem c6_buffer_full_drops_newest_witness :
    c6FullActor.bufferMessage "extra" 7 = (c6FullActor, none, [Effect.warnBufferFull]) :=
  c6_buffer_full_drops_newest c6FullActor "extra" 7 (by decide) (by simp [c6FullActor])

/-! ## Claim C7 -/

/-- C7, confirmed: a unicast `AgentMessage` (`target_client_id = Some cid`)
is serialized and sent to the client actor registered under `cid` when the
live-client map has it; otherwise the only effect is the
client-not-found warning — nothing is sent back to the agent — and in both
cases the router state is unchanged. -/
theorem c7_unicast_agent_message (r : RouterState) (msg : AgentMessage) (cid : Nat)
    (h : msg.target_client_id = some cid) :
    (handleAgentMessage r msg).1 = r ∧
    (∀ addr, lookupAssoc r.clients cid = some addr →
       (handleAgentMessage r msg).2 =
         [RouterEffect.sendToClient addr (serializeAgentMessage msg)]) ∧
    (lookupAssoc r.clients cid = none →
       (handleAgentMessage r msg).2 = [RouterEffect.warnClientNotFound cid]) := by
  refine ⟨?_, ?_, ?_⟩
  · unfold handleAgentMessage
    rw [h]
    cases hl : lookupAssoc r.clients cid <;> simp [hl]
  · intro addr haddr
    unfold handleAgentMessage
    rw [h]
    simp [haddr]
  · intro hnone
    unfold handleAgentMessage
    rw [h]
    simp [hnone]

/-- A concrete router with one live client (id 1, actor address 42). -/
def c7Router : RouterState :=
  { RouterState.new with clients := [(1, 42)] }

/-- A concrete unicast agent message for client 1. -/
def c7Message : AgentMessage :=
  { target_client_id := some 1
    content := "hi"
    timestamp := 9
    message_id := none
    requires_ack := false
    message_type := none }

/-- C7 witness: the routing theorem applied to the concrete router, both for
a live target (client 1) and a dead target (client 2). -/
theorem c7_unicast_agent_message_witness :
    (handleAgentMessage c7Router c7Message).1 = c7Router ∧
    (handleAgentMessage c7Router c7Message).2 =
      [RouterEffect.sendToClient 42 (serializeAgentMessage c7Message)] ∧
    (handleAgentMessage c7Router { c7Message with target_client_id := some 2 }).2 =
      [RouterEffect.warnClientNotFound 2] :=
  ⟨(c7_unicast_agent_message c7Router c7Message 1 rfl).1,
   (c7_unicast_agent_message c7Router c7Message 1 rfl).2.1 42 (by decide),
   (c7_unicast_agent_message c7Router { c7Message with target_client_id := some 2 } 2
      rfl).2.2 (by decide)⟩

/-! ## Claim C8 -/

/-- C8, confirmed: `Handler<UnregisterClient>` does not delete a registered
client's record: afterwards the record is still in the map, in state
Disconnected, with `last_seen` stamped to the current time (and the
disconnection counter bumped); a minimal session snapshot is saved besides. -/
theorem c8_unregister_keeps_record (sm : StateManager) (cid now : Nat) (c : ClientRecord)
    (h : lookupAssoc sm.clients cid = some c) :
    lookupAssoc (unregisterClient sm cid now).clients cid =
      some { c with
        state := ConnectionState.Disconnected
        last_seen := now
        disconnection_count := c.disconnection_count + 1 } ∧
    lookupAssoc (unregisterClient sm cid now).sessions cid =
      some (minimalSnapshot cid c) := by
  unfold unregisterClient
  rw [h]
  constructor
  · exact lookupAssoc_updateAssoc_self sm.clients cid
      (fun c => { c with
        state := ConnectionState.Disconnected
        last_seen := now
        disconnection_count := c.disconnection_count + 1 }) c h
  · exact lookupAssoc_insertAssoc_self sm.sessions cid (minimalSnapshot cid c)

/-- A state manager holding one registered, connected client. -/
def c8Manager : StateManager :=
  { clients := [(1, ClientRecord.fresh true none 0)], agents := [], sessions := [] }

/-- C8 witness: unregistering the concrete client at second 50 keeps its
record, now Disconnected with `last_seen = 50`. -/
theorem c8_unregister_keeps_record_witness :
    lookupAssoc (unregisterClient c8Manager 1 50).clients 1 =
      some { ClientRecord.fresh true none 0 with
        state := ConnectionState.Disconnected
        last_seen := 50
        disconnection_count := 1 } :=
  (c8_unregister_keeps_record c8Manager 1 50 (ClientRecord.fresh true none 0) (by decide)).1

/-! ## Claim C9 -/

theorem invalidate_of_lookup_none (r : ClientRegistry) (token : String)
    (h : lookupAssoc r.sessions token = none) :
    invalidateClientSession r token = (r, false) := by
  unfold invalidateClientSession
  rw [h]

/-- C9, confirmed: session invalidation is idempotent.  The first
`invalidate(token)` removes both the session entry and its client-id index
entry (when present); a second call finds nothing, changes nothing, returns
`false`, and the endpoint surfaces it as HTTP 404. -/
theorem c9_invalidate_idempotent (r : ClientRegistry) (token : String) :
    invalidateClientSession (invalidateClientSession r token).1 token =
      ((invalidateClientSession r token).1, false) ∧
    (invalidateSessionStatus (invalidateClientSession r token).1 token).2 = 404 ∧
    lookupAssoc (invalidateClientSession r token).1.sessions token = none := by
  have hnone : lookupAssoc (invalidateClientSession r token).1.sessions token = none := by
    unfold invalidateClientSession
    cases hl : lookupAssoc r.sessions token with
    | some s =>
      simp only [hl]
      exact lookupAssoc_removeAssoc_self r.sessions token
    | none =>
      simp only [hl]
  refine ⟨invalidate_of_lookup_none _ token hnone, ?_, hnone⟩
  have h2 := invalidate_of_lookup_none (invalidateClientSession r token).1 token hnone
  simp [invalidateSessionStatus, h2]

/-! ## Claim C10 -/

/-- C10, confirmed: when delivery confirmation is on and a connected client
actor is handed a JSON-object payload that already contains a
`"message_id"` field, the actor still consumes a fresh tracker id
(`last_sent_id + 1`), sends the payload unchanged, and records the pending
entry under the internal id; an acknowledgement carrying any id other than
that internal id (in particular the payload's own `message_id`) does not
remove the entry, which stays eligible for retransmission once the ack
timeout has passed. -/
theorem c10_preexisting_message_id (a : ClientActor) (content : String) (pid now : Nat)
    (hconn : a.is_connected = true) (hd : a.delivery_confirmation = true)
    (hj : jsonObjectLike content = true)
    (hm : containsSub content "\"message_id\":" = true)
    (hpid : pid ≠ a.message_tracker.last_sent_id + 1) :
    (a.handleClientActorMessage content now).1.message_tracker.last_sent_id =
      a.message_tracker.last_sent_id + 1 ∧
    (a.handleClientActorMessage content now).2 =
      [Effect.clientMetrics true (some content.length), Effect.sendText content] ∧
    lookupAssoc (a.handleClientActorMessage content now).1.message_tracker.pending_acks
      (a.message_tracker.last_sent_id + 1) = some (content, now) ∧
    lookupAssoc
      ((a.handleClientActorMessage content now).1.processAck pid).message_tracker.pending_acks
      (a.message_tracker.last_sent_id + 1) = some (content, now) ∧
    (a.message_tracker.last_sent_id + 1) ∈
      ((a.handleClientActorMessage content now).1.processAck pid).message_tracker.check_expired
        (now + a.message_tracker.ack_timeout + 1) := by
  unfold ClientActor.handleClientActorMessage
  rw [if_neg (by simp [hconn]), if_pos hd, if_pos hj]
  simp only [hm, if_true, MessageTracker.next_id, MessageTracker.add_pending]
  have hne : a.message_tracker.last_sent_id + 1 ≠ pid := fun hx => hpid hx.symm
  have hlook :
      lookupAssoc
        (removeAssoc
          (insertAssoc a.message_tracker.pending_acks
            (a.message_tracker.last_sent_id + 1) (content, now)) pid)
        (a.message_tracker.last_sent_id + 1) = some (content, now) := by
    rw [lookupAssoc_removeAssoc_ne _ _ _ hne]
    exact lookupAssoc_insertAssoc_self _ _ _
  refine ⟨by trivial, by trivial, lookupAssoc_insertAssoc_self _ _ _, ?_, ?_⟩
  · unfold ClientActor.processAck MessageTracker.confirm_delivery
    exact hlook
  · unfold ClientActor.processAck MessageTracker.confirm_delivery
    refine (mem_check_expired_iff _ _ _).mpr
      ⟨(a.message_tracker.last_sent_id + 1, content, now), mem_of_lookupAssoc hlook, rfl, ?_⟩
    simp only
    omega

/-- C10 witness: the theorem applied to a concrete connected actor handed
the payload `"\x7b\"message_id\":7\x7d"` and an ack carrying the payload's
own id 7 (distinct from the internal id 1). -/
theorem c10_preexisting_message_id_witness :
    lookupAssoc
      (((((ClientActor.new 1 0).started 0).handleClientActorMessage
          "\x7b\"message_id\":7\x7d" 5).1).processAck 7).message_tracker.pending_acks 1 =
      some ("\x7b\"message_id\":7\x7d", 5) :=
  (c10_preexisting_message_id ((ClientActor.new 1 0).started 0)
    "\x7b\"message_id\":7\x7d" 7 5 (by decide) (by decide) (by decide) (by decide)
    (by decide)).2.2.2.1

end AgentBridge
